import Mathlib

/-!
Verification of the core of a Binance futures trading bot.

The development shallowly embeds the order pipeline of the bot: the request
signer (HMAC-SHA256 over a URL-encoded query string), the API transport
(timestamp and signature injection, single POST attempt, error
normalization), the account bootstrap (best-effort leverage call), the order
router, and the parameter validator.

Modelling conventions:
  - Python dicts of request parameters become association lists
    `List (String × Val)` with Python dict-assignment semantics
    (`dictInsert` replaces in place when the key exists, else appends;
    insertion order is preserved, as in CPython).
  - Parameter values are strings, ints, floats or None (`Val`); the rendering
    of a Python float by `str` is not re-implemented but abstracted as an
    arbitrary rendering function `fs : FloatStr`, threaded through every
    definition that encodes parameters.  Decimal quantities and prices are
    carried as rationals.
  - The network is an oracle `net : Net` mapping an endpoint and the final
    (signed) parameter list to a response (status and body) or a timeout.
    The body of a successful response is returned as the success payload,
    standing for its parsed JSON form.
  - Wall-clock time is passed explicitly: each transport call receives the
    millisecond timestamp it would read from the clock.
  - Exceptions become `Except PyError`; `PyError.valueError` embeds Python
    ValueError, `PyError.httpError` the error raised for a client or server
    HTTP status, and `PyError.timeoutError` a transport timeout.
  - Every operation returns, next to its result, the list of requests that
    actually went out on the wire (`SentRequest`), so that claims about the
    number and shape of network attempts can be stated.
-/

/-! ## SHA-256 and HMAC-SHA256 (the algorithms behind hashlib.sha256 and hmac.new) -/

/-- Truncation of a natural number to a 32-bit word. -/
def w32 (n : Nat) : Nat := n % 4294967296

/-- Right rotation of a 32-bit word by n bits. -/
def rotr32 (n x : Nat) : Nat := w32 ((x >>> n) ||| (x <<< (32 - n)))

/-- Logical right shift of a 32-bit word. -/
def shr32 (n x : Nat) : Nat := x >>> n

/-- Choice function of the SHA-256 compression rounds. -/
def sha2Ch (e f g : Nat) : Nat := (e &&& f) ^^^ ((e ^^^ 4294967295) &&& g)

/-- Majority function of the SHA-256 compression rounds. -/
def sha2Maj (a b c : Nat) : Nat := (a &&& b) ^^^ (a &&& c) ^^^ (b &&& c)

/-- Big sigma-0 round function of SHA-256. -/
def bigSigma0 (x : Nat) : Nat := rotr32 2 x ^^^ rotr32 13 x ^^^ rotr32 22 x

/-- Big sigma-1 round function of SHA-256. -/
def bigSigma1 (x : Nat) : Nat := rotr32 6 x ^^^ rotr32 11 x ^^^ rotr32 25 x

/-- Small sigma-0 message-schedule function of SHA-256. -/
def smallSigma0 (x : Nat) : Nat := rotr32 7 x ^^^ rotr32 18 x ^^^ shr32 3 x

/-- Small sigma-1 message-schedule function of SHA-256. -/
def smallSigma1 (x : Nat) : Nat := rotr32 17 x ^^^ rotr32 19 x ^^^ shr32 10 x

/-- Round constants of SHA-256 (FIPS 180-4), written in decimal. -/
def sha256K : List Nat :=
  [1116352408, 1899447441, 3049323471, 3921009573, 961987163, 1508970993,
   2453635748, 2870763221, 3624381080, 310598401, 607225278, 1426881987,
   1925078388, 2162078206, 2614888103, 3248222580, 3835390401, 4022224774,
   264347078, 604807628, 770255983, 1249150122, 1555081692, 1996064986,
   2554220882, 2821834349, 2952996808, 3210313671, 3336571891, 3584528711,
   113926993, 338241895, 666307205, 773529912, 1294757372, 1396182291,
   1695183700, 1986661051, 2177026350, 2456956037, 2730485921, 2820302411,
   3259730800, 3345764771, 3516065817, 3600352804, 4094571909, 275423344,
   430227734, 506948616, 659060556, 883997877, 958139571, 1322822218,
   1537002063, 1747873779, 1955562222, 2024104815, 2227730452, 2361852424,
   2428436474, 2756734187, 3204031479, 3329325298]

/-- Initial hash state of SHA-256 (FIPS 180-4), written in decimal. -/
def sha256H0 : List Nat :=
  [1779033703, 3144134277, 1013904242, 2773480762,
   1359893119, 2600822924, 528734635, 1541459225]

/-- Big-endian byte rendering of a 64-bit value. -/
def be64 (n : Nat) : List Nat :=
  [n >>> 56 &&& 255, n >>> 48 &&& 255, n >>> 40 &&& 255, n >>> 32 &&& 255,
   n >>> 24 &&& 255, n >>> 16 &&& 255, n >>> 8 &&& 255, n &&& 255]

/-- Big-endian byte rendering of a 32-bit word. -/
def be32 (n : Nat) : List Nat :=
  [n >>> 24 &&& 255, n >>> 16 &&& 255, n >>> 8 &&& 255, n &&& 255]

/-- SHA-256 message padding: a 0x80 byte, zero bytes up to 56 mod 64, and the
bit length of the message as a 64-bit big-endian value. -/
def sha256Pad (m : List Nat) : List Nat :=
  let L := m.length
  let k := (64 - ((L + 9) % 64)) % 64
  m ++ [128] ++ List.replicate k 0 ++ be64 (8 * L)

/-- Grouping of a byte list into big-endian 32-bit words. -/
def toWords : List Nat → List Nat
  | b0 :: b1 :: b2 :: b3 :: rest =>
      (b0 * 16777216 + b1 * 65536 + b2 * 256 + b3) :: toWords rest
  | _ => []

/-- Splitting of a list into 64-byte chunks; the first argument is recursion
fuel, instantiated with the length of the list. -/
def chunks64 : Nat → List Nat → List (List Nat)
  | 0, _ => []
  | _, [] => []
  | Nat.succ fuel, l => l.take 64 :: chunks64 fuel (l.drop 64)

/-- Extension of the 16 message-schedule words of a block to 64 words. -/
def extendW (ws : List Nat) : Array Nat :=
  (List.range 48).foldl
    (fun arr i =>
      let j := i + 16
      arr.push (w32 (arr.getD (j - 16) 0 + smallSigma0 (arr.getD (j - 15) 0) +
                     arr.getD (j - 7) 0 + smallSigma1 (arr.getD (j - 2) 0))))
    ws.toArray

/-- Working variables of the SHA-256 compression function. -/
structure H8 where
  a : Nat
  b : Nat
  c : Nat
  d : Nat
  e : Nat
  f : Nat
  g : Nat
  h : Nat
deriving DecidableEq

/-- One round of the SHA-256 compression function. -/
def sha256Round (w : Array Nat) (st : H8) (i : Nat) : H8 :=
  let t1 := w32 (st.h + bigSigma1 st.e + sha2Ch st.e st.f st.g + sha256K.getD i 0 + w.getD i 0)
  let t2 := w32 (bigSigma0 st.a + sha2Maj st.a st.b st.c)
  ⟨w32 (t1 + t2), st.a, st.b, st.c, w32 (st.d + t1), st.e, st.f, st.g⟩

/-- Compression of one 64-byte block into the running hash state. -/
def sha256Compress (hs : List Nat) (block : List Nat) : List Nat :=
  let w := extendW (toWords block)
  let init : H8 := ⟨hs.getD 0 0, hs.getD 1 0, hs.getD 2 0, hs.getD 3 0,
                    hs.getD 4 0, hs.getD 5 0, hs.getD 6 0, hs.getD 7 0⟩
  let st := (List.range 64).foldl (sha256Round w) init
  [w32 (hs.getD 0 0 + st.a), w32 (hs.getD 1 0 + st.b), w32 (hs.getD 2 0 + st.c),
   w32 (hs.getD 3 0 + st.d), w32 (hs.getD 4 0 + st.e), w32 (hs.getD 5 0 + st.f),
   w32 (hs.getD 6 0 + st.g), w32 (hs.getD 7 0 + st.h)]

/-- SHA-256 of a byte list, as a 32-byte list. -/
def sha256 (m : List Nat) : List Nat :=
  let padded := sha256Pad m
  let final := (chunks64 padded.length padded).foldl sha256Compress sha256H0
  final.flatMap be32

/-- HMAC-SHA256 as the Python hmac module computes it for the sha256 digest:
a key longer than the 64-byte block is first hashed, the key is then
zero-padded to the block size, and the result is
sha256(opad-key ++ sha256(ipad-key ++ msg)). -/
def hmacSha256 (key msg : List Nat) : List Nat :=
  let k0 := if 64 < key.length then sha256 key else key
  let kp := k0 ++ List.replicate (64 - k0.length) 0
  let ipadded := kp.map (fun b => b ^^^ 0x36)
  let opadded := kp.map (fun b => b ^^^ 0x5c)
  sha256 (opadded ++ sha256 (ipadded ++ msg))

/-- Lowercase hexadecimal digit of a value below 16. -/
def hexCharLower (n : Nat) : Char := "0123456789abcdef".toList.getD n (Char.ofNat 48)

/-- Uppercase hexadecimal digit of a value below 16. -/
def hexCharUpper (n : Nat) : Char := "0123456789ABCDEF".toList.getD n (Char.ofNat 48)

/-- Lowercase hexadecimal rendering of a byte list, as hexdigest produces it. -/
def bytesToLowerHex (bs : List Nat) : String :=
  String.mk (bs.flatMap fun b => [hexCharLower (b / 16), hexCharLower (b % 16)])

/-- UTF-8 encoding of one character. -/
def charUtf8 (c : Char) : List Nat :=
  let n := c.toNat
  if n < 128 then [n]
  else if n < 2048 then [192 + n / 64, 128 + n % 64]
  else if n < 65536 then [224 + n / 4096, 128 + (n / 64) % 64, 128 + n % 64]
  else [240 + n / 262144, 128 + (n / 4096) % 64, 128 + (n / 64) % 64, 128 + n % 64]

/-- UTF-8 bytes of a string, as the Python str.encode method yields them. -/
def utf8Bytes (s : String) : List Nat := s.data.flatMap charUtf8

/-! ## Parameter values and the urlencode query-string encoding -/

/-- Value of a request parameter: the dicts of the client carry strings, ints
(timestamp, leverage), floats (quantity, price) and possibly Python None. -/
inductive Val where
  | vstr (s : String)
  | vint (n : Int)
  | vnum (q : Rat)
  | vnone
deriving DecidableEq

/-- Rendering function standing for the Python str conversion of a float;
abstracted because the shortest-roundtrip decimal rendering of binary floats
is outside the scope of this embedding. -/
def FloatStr : Type := Rat → String

/-- Python str conversion of a parameter value, with floats rendered by fs. -/
def valStr (fs : FloatStr) : Val → String
  | Val.vstr s => s
  | Val.vint n => toString n
  | Val.vnum q => fs q
  | Val.vnone => "None"

/-- Byte class kept verbatim by the urllib quoting functions: ASCII letters,
digits, underscore, dot, hyphen and tilde. -/
def alwaysSafeByte (b : Nat) : Bool :=
  (65 ≤ b && b ≤ 90) || (97 ≤ b && b ≤ 122) || (48 ≤ b && b ≤ 57) ||
  b == 95 || b == 46 || b == 45 || b == 126

/-- Quoting of one byte under quote_plus with an empty safe string: safe bytes
stand for themselves, a space becomes a plus sign, and every other byte
becomes a percent escape with uppercase hexadecimal digits. -/
def quoteByte (b : Nat) : List Char :=
  if alwaysSafeByte b then [Char.ofNat b]
  else if b == 32 then [Char.ofNat 43]
  else [Char.ofNat 37, hexCharUpper (b / 16), hexCharUpper (b % 16)]

/-- The urllib quote_plus function (with the empty safe string, as urlencode
calls it), applied to the UTF-8 bytes of a string. -/
def quote_plus (s : String) : String := String.mk ((utf8Bytes s).flatMap quoteByte)

/-- The urllib urlencode function on an association list: each key and each
str-converted value is quoted with quote_plus, pairs are joined with an equals
sign and entries with ampersands, in insertion order. -/
def urlencode (fs : FloatStr) (query : List (String × Val)) : String :=
  String.intercalate "&" (query.map (fun kv => quote_plus kv.1 ++ "=" ++ quote_plus (valStr fs kv.2)))

/-! ## Python dict operations on parameter association lists -/

/-- Keys of a parameter dict, in insertion order. -/
def dictKeys (l : List (String × Val)) : List String := l.map Prod.fst

/-- Python dict assignment: an existing key keeps its position and gets the
new value, a fresh key is appended at the end. -/
def dictInsert (l : List (String × Val)) (k : String) (v : Val) : List (String × Val) :=
  if k ∈ dictKeys l then l.map (fun p => if p.1 = k then (k, v) else p)
  else l ++ [(k, v)]

/-- Lookup of a key in a parameter dict. -/
def dictGet (l : List (String × Val)) (k : String) : Option Val :=
  (l.find? (fun p => p.1 == k)).map Prod.snd

/-- Removal of a key from a parameter dict. -/
def dictRemove (l : List (String × Val)) (k : String) : List (String × Val) :=
  l.filter (fun p => p.1 != k)

/-! ## The Binance futures client -/

/-- The client: API key (sent as a header), API secret (the HMAC key), and the
HTTP timeout in seconds. -/
structure BinanceFuturesClient where
  api_key : String
  api_secret : String
  request_timeout : Nat
deriving DecidableEq

/-- The Request Signer: urlencode the parameters, then HMAC-SHA256 the UTF-8
bytes of that query string with the UTF-8 bytes of the API secret as the key,
and render the digest as lowercase hexadecimal. -/
def BinanceFuturesClient._sign_request (c : BinanceFuturesClient) (fs : FloatStr)
    (params : List (String × Val)) : String :=
  let query_string := urlencode fs params
  bytesToLowerHex (hmacSha256 (utf8Bytes c.api_secret) (utf8Bytes query_string))

/-- Response of the network oracle to one POST attempt: an HTTP status with a
body, or expiry of the configured timeout. -/
inductive NetResponse where
  | response (status : Nat) (body : String)
  | timeout
deriving DecidableEq

/-- Network oracle: what the remote end answers to a POST of the given final
parameter list at the given endpoint path. -/
def Net : Type := String → List (String × Val) → NetResponse

/-- Record of one request that went out on the wire. -/
structure SentRequest where
  endpoint : String
  request_params : List (String × Val)
deriving DecidableEq

/-- Embedded Python exceptions: ValueError from the validator and the router,
the HTTP error that raise_for_status raises for a 4xx or 5xx status, and the
timeout error of the requests library. -/
inductive PyError where
  | valueError (msg : String)
  | httpError (status : Nat) (body : String)
  | timeoutError
deriving DecidableEq

/-- Decidable equality of embedded results, needed to evaluate claims on
concrete inputs. -/
instance {e a : Type} [DecidableEq e] [DecidableEq a] : DecidableEq (Except e a) := fun x y =>
  match x, y with
  | Except.error a1, Except.error a2 =>
      if h : a1 = a2 then Decidable.isTrue (by rw [h])
      else Decidable.isFalse (fun hc => h (Except.error.inj hc))
  | Except.ok a1, Except.ok a2 =>
      if h : a1 = a2 then Decidable.isTrue (by rw [h])
      else Decidable.isFalse (fun hc => h (Except.ok.inj hc))
  | Except.error _, Except.ok _ => Decidable.isFalse (fun hc => Except.noConfusion hc)
  | Except.ok _, Except.error _ => Decidable.isFalse (fun hc => Except.noConfusion hc)

/-- Final parameter dict built inside _post_request: the millisecond timestamp
is assigned into the dict, the signature is computed over the dict in that
state, and then assigned into the same dict. -/
def signed_params (c : BinanceFuturesClient) (fs : FloatStr) (ts : Int)
    (request_params : List (String × Val)) : List (String × Val) :=
  let p1 := dictInsert request_params "timestamp" (Val.vint ts)
  dictInsert p1 "signature" (Val.vstr (c._sign_request fs p1))

/-- State of the caller-supplied request_params dict after _post_request
returns: the source assigns the timestamp and the signature into the very dict
object the caller passed in, so the caller observes this value afterwards,
whether the call succeeded or raised. -/
def request_params_after_post (c : BinanceFuturesClient) (fs : FloatStr) (ts : Int)
    (request_params : List (String × Val)) : List (String × Val) :=
  signed_params c fs ts request_params

/-- The API Transport: build the final signed parameter dict, POST it once to
the endpoint, and normalize the outcome — timeout to a transport error, a 4xx
or 5xx status to an HTTP error carrying status and body, any other status to a
success carrying the body.  The second component lists the single request that
went out. -/
def BinanceFuturesClient._post_request (c : BinanceFuturesClient) (fs : FloatStr) (net : Net)
    (ts : Int) (endpoint_path : String) (request_params : List (String × Val)) :
    Except PyError String × List SentRequest :=
  let final := signed_params c fs ts request_params
  let result : Except PyError String :=
    match net endpoint_path final with
    | NetResponse.timeout => Except.error PyError.timeoutError
    | NetResponse.response status body =>
        if 400 ≤ status ∧ status < 600 then Except.error (PyError.httpError status body)
        else Except.ok body
  (result, [⟨endpoint_path, final⟩])

/-- Leverage configuration call of the client. -/
def BinanceFuturesClient.set_leverage (c : BinanceFuturesClient) (fs : FloatStr) (net : Net)
    (ts : Int) (symbol : String) (leverage : Int) :
    Except PyError String × List SentRequest :=
  c._post_request fs net ts "/fapi/v1/leverage"
    [("symbol", Val.vstr symbol), ("leverage", Val.vint leverage)]

/-- The Account Bootstrap: attempt to set leverage 10 for the symbol and
swallow any failure — the result component is a success for every network
oracle, while the attempted request still appears in the trace. -/
def BinanceFuturesClient.ensure_symbol_ready (c : BinanceFuturesClient) (fs : FloatStr)
    (net : Net) (ts : Int) (symbol : String) : Except PyError Unit × List SentRequest :=
  let r := c.set_leverage fs net ts symbol 10
  (Except.ok (), r.2)

/-- Market order placement: bootstrap the symbol, then POST the order. -/
def BinanceFuturesClient.place_market_order (c : BinanceFuturesClient) (fs : FloatStr)
    (net : Net) (ts1 ts2 : Int) (symbol side : String) (quantity : Rat) :
    Except PyError String × List SentRequest :=
  let boot := c.ensure_symbol_ready fs net ts1 symbol
  let ord := c._post_request fs net ts2 "/fapi/v1/order"
    [("symbol", Val.vstr symbol), ("side", Val.vstr side),
     ("type", Val.vstr "MARKET"), ("quantity", Val.vnum quantity)]
  (ord.1, boot.2 ++ ord.2)

/-- Optional price as the parameter value Python would transmit: the float
itself, or None when absent. -/
def priceVal : Option Rat → Val
  | some q => Val.vnum q
  | none => Val.vnone

/-- Limit order placement: bootstrap the symbol, then POST the order with the
GTC time-in-force policy. -/
def BinanceFuturesClient.place_limit_order (c : BinanceFuturesClient) (fs : FloatStr)
    (net : Net) (ts1 ts2 : Int) (symbol side : String) (quantity : Rat) (price : Option Rat) :
    Except PyError String × List SentRequest :=
  let boot := c.ensure_symbol_ready fs net ts1 symbol
  let ord := c._post_request fs net ts2 "/fapi/v1/order"
    [("symbol", Val.vstr symbol), ("side", Val.vstr side),
     ("type", Val.vstr "LIMIT"), ("timeInForce", Val.vstr "GTC"),
     ("quantity", Val.vnum quantity), ("price", priceVal price)]
  (ord.1, boot.2 ++ ord.2)

/-! ## Validator and order service -/

/-- Parsed command-line arguments of an order intent.  Quantity and price are
carried as rationals standing for the parsed float values. -/
structure Args where
  symbol : String
  side : String
  type : String
  quantity : Rat
  price : Option Rat
deriving DecidableEq

/-- The Parameter Validator: reject a side outside BUY and SELL, then a
non-positive quantity, then a LIMIT order without a price; otherwise accept.
Each rejection is a ValueError with a descriptive message. -/
def validate_common (a : Args) : Except PyError Unit :=
  if a.side ∉ (["BUY", "SELL"] : List String) then
    Except.error (PyError.valueError ("Invalid order side " ++ a.side ++ ". Must be BUY or SELL"))
  else if a.quantity ≤ 0 then
    Except.error (PyError.valueError "Invalid quantity. Quantity must be greater than 0")
  else if a.type = "LIMIT" ∧ a.price = none then
    Except.error (PyError.valueError "Price is required for LIMIT orders. Provide the price argument")
  else Except.ok ()

/-- The order service holding the client. -/
structure OrderService where
  binance_client : BinanceFuturesClient

/-- The Order Router: route a MARKET intent to place_market_order, a LIMIT
intent to place_limit_order, and fail with a ValueError on any other type,
without touching the network. -/
def OrderService.create (svc : OrderService) (fs : FloatStr) (net : Net) (ts1 ts2 : Int)
    (a : Args) : Except PyError String × List SentRequest :=
  if a.type = "MARKET" then
    svc.binance_client.place_market_order fs net ts1 ts2 a.symbol a.side a.quantity
  else if a.type = "LIMIT" then
    svc.binance_client.place_limit_order fs net ts1 ts2 a.symbol a.side a.quantity a.price
  else
    (Except.error (PyError.valueError ("Unsupported order type: " ++ a.type)), [])

/-! ## Specification-side definitions

These follow the wording of the specification, for comparison with the
definitions above that were translated from the source. -/

/-- Query-string encoding as the specification words it: key=value pairs
joined with ampersands, each component percent-encoded per URL query rules. -/
def spec_query_string (fs : FloatStr) (params : List (String × Val)) : String :=
  String.intercalate "&"
    (params.map (fun kv => quote_plus kv.1 ++ "=" ++ quote_plus (valStr fs kv.2)))

/-- Signature as the specification words it: the lowercase hexadecimal digest
of HMAC-SHA256, keyed with the UTF-8 bytes of the API secret, over the UTF-8
bytes of the query-string encoding of the parameters. -/
def spec_signature (secret : String) (fs : FloatStr) (params : List (String × Val)) : String :=
  bytesToLowerHex (hmacSha256 (utf8Bytes secret) (utf8Bytes (spec_query_string fs params)))

/-! ## Dictionary lemmas -/

theorem dictInsert_of_not_mem (l : List (String × Val)) (k : String) (v : Val)
    (h : k ∉ dictKeys l) : dictInsert l k v = l ++ [(k, v)] := by
  simp [dictInsert, h]

theorem not_mem_dictKeys_dictInsert (l : List (String × Val)) (k k2 : String) (v : Val)
    (h1 : k2 ∉ dictKeys l) (h2 : k2 ≠ k) : k2 ∉ dictKeys (dictInsert l k v) := by
  intro hmem
  unfold dictInsert at hmem
  split at hmem
  · simp only [dictKeys, List.mem_map] at hmem
    rcases hmem with ⟨p, hp, hfst⟩
    rcases hp with ⟨a2, ha2, hfa⟩
    subst hfa
    by_cases hpk : a2.1 = k
    · rw [if_pos hpk] at hfst
      exact h2 (by simpa using hfst.symm)
    · rw [if_neg hpk] at hfst
      have hm : a2.1 ∈ dictKeys l := List.mem_map_of_mem Prod.fst ha2
      rw [hfst] at hm
      exact h1 hm
  · simp only [dictKeys, List.map_append, List.mem_append] at hmem
    rcases hmem with hmem | hmem
    · exact h1 hmem
    · simp only [List.map_cons, List.map_nil, List.mem_singleton] at hmem
      exact h2 hmem

theorem dictGet_append_single (l : List (String × Val)) (k : String) (v : Val)
    (h : k ∉ dictKeys l) : dictGet (l ++ [(k, v)]) k = some v := by
  unfold dictGet
  rw [List.find?_append]
  have hnone : l.find? (fun p => p.1 == k) = none := by
    rw [List.find?_eq_none]
    intro p hp
    simp only [beq_iff_eq]
    intro hpk
    have hm : p.1 ∈ dictKeys l := List.mem_map_of_mem Prod.fst hp
    rw [hpk] at hm
    exact h hm
  simp [hnone]

theorem dictRemove_append_single (l : List (String × Val)) (k : String) (v : Val)
    (h : k ∉ dictKeys l) : dictRemove (l ++ [(k, v)]) k = l := by
  unfold dictRemove
  rw [List.filter_append]
  have h2 : l.filter (fun p => p.1 != k) = l := by
    rw [List.filter_eq_self]
    intro p hp
    simp only [bne_iff_ne, ne_eq]
    intro hpk
    have hm : p.1 ∈ dictKeys l := List.mem_map_of_mem Prod.fst hp
    rw [hpk] at hm
    exact h hm
  simp [h2]

/-! ## Claim C1 -/

theorem hexCharLower_mem_digits (n : Nat) : hexCharLower n ∈ "0123456789abcdef".data := by
  by_cases h : n < 16
  · interval_cases n <;> decide
  · unfold hexCharLower
    rw [List.getD_eq_default]
    · decide
    · push_neg at h
      have h16 : "0123456789abcdef".toList.length = 16 := by decide
      omega

theorem sign_request_chars_lower_hex (c : BinanceFuturesClient) (fs : FloatStr)
    (P : List (String × Val)) :
    (BinanceFuturesClient._sign_request c fs P).data ⊆ "0123456789abcdef".data := by
  intro x hx
  unfold BinanceFuturesClient._sign_request bytesToLowerHex at hx
  simp only [String.data, List.mem_flatMap] at hx
  rcases hx with ⟨b, _, hmem⟩
  simp only [List.mem_cons, List.mem_singleton, List.not_mem_nil, or_false] at hmem
  rcases hmem with h1 | h1 <;> rw [h1] <;> exact hexCharLower_mem_digits _

/-- C1: for every parameter mapping P and API secret, the Request Signer
returns exactly the lowercase hexadecimal digest of HMAC-SHA256 keyed with the
UTF-8 bytes of the secret, computed over the UTF-8 bytes of the URL
query-string encoding of P: it coincides with the signature prescribed by the
specification, and its characters are lowercase hexadecimal digits. -/
theorem c1_sign_request_is_spec_signature (c : BinanceFuturesClient) (fs : FloatStr)
    (P : List (String × Val)) :
    BinanceFuturesClient._sign_request c fs P = spec_signature c.api_secret fs P ∧
    (BinanceFuturesClient._sign_request c fs P).data ⊆ "0123456789abcdef".data :=
  ⟨rfl, sign_request_chars_lower_hex c fs P⟩

/-! ## Claim C4 -/

/-- C4: the Account Bootstrap never fails — its result is a success for every
network oracle, every timestamp and every symbol — and the order placed by
place_market_order and place_limit_order is exactly the plain transport call
on the order endpoint, so the outcome of the leverage call can neither prevent
nor alter the order submission. -/
theorem c4_bootstrap_never_fails_and_never_alters_orders (c : BinanceFuturesClient)
    (fs : FloatStr) (net : Net) (ts1 ts2 : Int) (symbol side : String) (q : Rat)
    (price : Option Rat) :
    (BinanceFuturesClient.ensure_symbol_ready c fs net ts1 symbol).1 = Except.ok () ∧
    (BinanceFuturesClient.place_market_order c fs net ts1 ts2 symbol side q).1 =
      (BinanceFuturesClient._post_request c fs net ts2 "/fapi/v1/order"
        [("symbol", Val.vstr symbol), ("side", Val.vstr side),
         ("type", Val.vstr "MARKET"), ("quantity", Val.vnum q)]).1 ∧
    (BinanceFuturesClient.place_limit_order c fs net ts1 ts2 symbol side q price).1 =
      (BinanceFuturesClient._post_request c fs net ts2 "/fapi/v1/order"
        [("symbol", Val.vstr symbol), ("side", Val.vstr side),
         ("type", Val.vstr "LIMIT"), ("timeInForce", Val.vstr "GTC"),
         ("quantity", Val.vnum q), ("price", priceVal price)]).1 :=
  ⟨rfl, rfl, rfl⟩

/-! ## Claim C5 -/

/-- C5: the Parameter Validator rejects exactly when the side is outside BUY
and SELL, or the quantity is non-positive, or the type is LIMIT with no price;
and every rejection is a ValueError, never any other error kind. -/
theorem c5_validate_common_rejects_iff (a : Args) :
    ((∃ msg, validate_common a = Except.error (PyError.valueError msg)) ↔
      (a.side ∉ (["BUY", "SELL"] : List String) ∨ a.quantity ≤ 0 ∨
        (a.type = "LIMIT" ∧ a.price = none))) ∧
    (validate_common a = Except.ok () ∨
      ∃ msg, validate_common a = Except.error (PyError.valueError msg)) := by
  unfold validate_common
  split_ifs with h1 h2 h3 <;> simp_all

/-! ## Claim C2 -/

theorem dictGet_append_of_not_mem (l l2 : List (String × Val)) (k : String)
    (h : k ∉ dictKeys l) : dictGet (l ++ l2) k = dictGet l2 k := by
  unfold dictGet
  rw [List.find?_append]
  have hnone : l.find? (fun p => p.1 == k) = none := by
    rw [List.find?_eq_none]
    intro p hp
    simp only [beq_iff_eq]
    intro hpk
    have hm : p.1 ∈ dictKeys l := List.mem_map_of_mem Prod.fst hp
    rw [hpk] at hm
    exact h hm
  simp [hnone]

/-- C2 counterexample: after a transport call on the parameter mapping
containing only the symbol BTCUSDT, the caller-supplied mapping contains a
timestamp entry that it did not contain before the call, so the mapping is not
worked on as a clone and is not left unchanged. -/
theorem c2_counterexample :
    "timestamp" ∈ dictKeys (request_params_after_post ⟨"key", "secret", 10⟩ (fun _ => "q")
      1700000000000 [("symbol", Val.vstr "BTCUSDT")]) ∧
    "timestamp" ∉ dictKeys [(("symbol" : String), Val.vstr "BTCUSDT")] := by
  decide

/-- C2 amended: _post_request does not clone the caller-supplied mapping but
writes into it: when the mapping contains neither a timestamp nor a signature
key, the caller observes after the call (successful or not) its original
entries followed by the injected timestamp and the injected signature. -/
theorem c2_amended_post_request_mutates_params (c : BinanceFuturesClient) (fs : FloatStr)
    (ts : Int) (P : List (String × Val))
    (h1 : "timestamp" ∉ dictKeys P) (h2 : "signature" ∉ dictKeys P) :
    request_params_after_post c fs ts P =
      P ++ [("timestamp", Val.vint ts),
            ("signature", Val.vstr (BinanceFuturesClient._sign_request c fs
              (P ++ [("timestamp", Val.vint ts)])))] := by
  unfold request_params_after_post signed_params
  rw [dictInsert_of_not_mem P _ _ h1]
  have hsig : "signature" ∉ dictKeys (P ++ [("timestamp", Val.vint ts)]) := by
    intro hmem
    simp only [dictKeys, List.map_append, List.mem_append, List.map_cons, List.map_nil,
      List.mem_singleton] at hmem
    rcases hmem with hmem | hmem
    · exact h2 hmem
    · exact absurd hmem (by decide)
  rw [dictInsert_of_not_mem _ _ _ hsig, List.append_assoc]
  rfl

/-- Witness for the amended C2 at the concrete market-order parameters. -/
theorem c2_amended_witness :
    request_params_after_post ⟨"key", "secret", 10⟩ (fun _ => "q") 1700000000000
        [("symbol", Val.vstr "BTCUSDT")] =
      [("symbol", Val.vstr "BTCUSDT"), ("timestamp", Val.vint 1700000000000),
       ("signature", Val.vstr (BinanceFuturesClient._sign_request ⟨"key", "secret", 10⟩
         (fun _ => "q")
         [("symbol", Val.vstr "BTCUSDT"), ("timestamp", Val.vint 1700000000000)]))] :=
  c2_amended_post_request_mutates_params ⟨"key", "secret", 10⟩ (fun _ => "q") 1700000000000
    [("symbol", Val.vstr "BTCUSDT")] (by decide) (by decide)

/-! ## Claim C3 -/

/-- C3: the transmitted signature equals the Signer applied to the final
parameter set, namely all caller-supplied parameters followed by the injected
timestamp and nothing else — the timestamp is injected strictly before
signing, the signature strictly after, so the signed set contains the
timestamp and excludes the signature; the transport sends exactly that final
mapping. -/
theorem c3_signature_over_final_params (c : BinanceFuturesClient) (fs : FloatStr)
    (net : Net) (ts : Int) (ep : String) (P : List (String × Val))
    (h1 : "timestamp" ∉ dictKeys P) (h2 : "signature" ∉ dictKeys P) :
    dictGet (signed_params c fs ts P) "signature" =
      some (Val.vstr (BinanceFuturesClient._sign_request c fs
        (P ++ [("timestamp", Val.vint ts)]))) ∧
    dictGet (signed_params c fs ts P) "timestamp" = some (Val.vint ts) ∧
    dictRemove (signed_params c fs ts P) "signature" = P ++ [("timestamp", Val.vint ts)] ∧
    (BinanceFuturesClient._post_request c fs net ts ep P).2 =
      [⟨ep, signed_params c fs ts P⟩] := by
  have hsig : "signature" ∉ dictKeys (P ++ [("timestamp", Val.vint ts)]) := by
    intro hmem
    simp only [dictKeys, List.map_append, List.mem_append, List.map_cons, List.map_nil,
      List.mem_singleton] at hmem
    rcases hmem with hmem | hmem
    · exact h2 hmem
    · exact absurd hmem (by decide)
  have hP1 : signed_params c fs ts P =
      (P ++ [("timestamp", Val.vint ts)]) ++
        [("signature", Val.vstr (BinanceFuturesClient._sign_request c fs
          (P ++ [("timestamp", Val.vint ts)])))] := by
    unfold signed_params
    rw [dictInsert_of_not_mem P _ _ h1, dictInsert_of_not_mem _ _ _ hsig]
  refine ⟨?_, ?_, ?_, rfl⟩
  · rw [hP1]
    exact dictGet_append_single _ _ _ hsig
  · rw [hP1, List.append_assoc, dictGet_append_of_not_mem _ _ _ h1]
    simp [dictGet]
  · rw [hP1]
    exact dictRemove_append_single _ _ _ hsig

/-- Witness for C3 at the concrete market-order parameters. -/
theorem c3_witness :
    dictGet (signed_params ⟨"key", "secret", 10⟩ (fun _ => "q") 1700000000000
        [("symbol", Val.vstr "BTCUSDT")]) "signature" =
      some (Val.vstr (BinanceFuturesClient._sign_request ⟨"key", "secret", 10⟩ (fun _ => "q")
        [("symbol", Val.vstr "BTCUSDT"), ("timestamp", Val.vint 1700000000000)])) ∧
    dictGet (signed_params ⟨"key", "secret", 10⟩ (fun _ => "q") 1700000000000
        [("symbol", Val.vstr "BTCUSDT")]) "timestamp" = some (Val.vint 1700000000000) ∧
    dictRemove (signed_params ⟨"key", "secret", 10⟩ (fun _ => "q") 1700000000000
        [("symbol", Val.vstr "BTCUSDT")]) "signature" =
      [("symbol", Val.vstr "BTCUSDT"), ("timestamp", Val.vint 1700000000000)] ∧
    (BinanceFuturesClient._post_request ⟨"key", "secret", 10⟩ (fun _ => "q")
        (fun _ _ => NetResponse.response 200 "ok") 1700000000000 "/fapi/v1/order"
        [("symbol", Val.vstr "BTCUSDT")]).2 =
      [⟨"/fapi/v1/order", signed_params ⟨"key", "secret", 10⟩ (fun _ => "q") 1700000000000
        [("symbol", Val.vstr "BTCUSDT")]⟩] :=
  c3_signature_over_final_params ⟨"key", "secret", 10⟩ (fun _ => "q")
    (fun _ _ => NetResponse.response 200 "ok") 1700000000000 "/fapi/v1/order"
    [("symbol", Val.vstr "BTCUSDT")] (by decide) (by decide)

/-! ## Claim C6 -/

/-- C6 counterexample: a MARKET intent carrying a price passes the validator,
yet its price is present while its type is not LIMIT, so the invariant that
the price is present exactly for LIMIT intents does not hold for every intent
the validator accepts. -/
theorem c6_counterexample :
    validate_common ⟨"BTCUSDT", "BUY", "MARKET", 1, some 5⟩ = Except.ok () ∧
    ¬ ((Args.price ⟨"BTCUSDT", "BUY", "MARKET", 1, some 5⟩ ≠ none) ↔
       Args.type ⟨"BTCUSDT", "BUY", "MARKET", 1, some 5⟩ = "LIMIT") := by
  decide

/-- C6 amended: an intent the validator accepts has a side among BUY and SELL,
a positive quantity, and a price whenever its type is LIMIT; a price may
however also be present when the type is not LIMIT. -/
theorem c6_amended_validated_invariant (a : Args)
    (h : validate_common a = Except.ok ()) :
    (a.side = "BUY" ∨ a.side = "SELL") ∧ 0 < a.quantity ∧
      (a.type = "LIMIT" → a.price ≠ none) := by
  unfold validate_common at h
  split_ifs at h with h1 h2 h3
  exact ⟨by simpa using h1, not_le.mp h2, fun ht hp => h3 ⟨ht, hp⟩⟩

/-- Witness for the amended C6 at a concrete validated LIMIT intent. -/
theorem c6_amended_witness :
    (Args.side ⟨"ETHUSDT", "SELL", "LIMIT", 2, some 3000⟩ = "BUY" ∨
     Args.side ⟨"ETHUSDT", "SELL", "LIMIT", 2, some 3000⟩ = "SELL") ∧
    0 < Args.quantity ⟨"ETHUSDT", "SELL", "LIMIT", 2, some 3000⟩ ∧
    (Args.type ⟨"ETHUSDT", "SELL", "LIMIT", 2, some 3000⟩ = "LIMIT" →
     Args.price ⟨"ETHUSDT", "SELL", "LIMIT", 2, some 3000⟩ ≠ none) :=
  c6_amended_validated_invariant ⟨"ETHUSDT", "SELL", "LIMIT", 2, some 3000⟩ (by decide)

/-! ## Claim C7 -/

/-- C7: the Order Router first invokes the Account Bootstrap for the intent
symbol (exactly one leverage request), then issues exactly one Transport call
to the order endpoint whose caller-supplied parameter set is exactly the
MARKET set, or exactly the LIMIT set with timeInForce GTC, and returns the
Transport result unmodified; any other type value fails fast with a
descriptive ValueError and issues no network call at all. -/
theorem c7_create_routes_orders (svc : OrderService) (fs : FloatStr) (net : Net)
    (ts1 ts2 : Int) (a : Args) :
    (a.type = "MARKET" →
      OrderService.create svc fs net ts1 ts2 a =
        ((BinanceFuturesClient._post_request svc.binance_client fs net ts2 "/fapi/v1/order"
            [("symbol", Val.vstr a.symbol), ("side", Val.vstr a.side),
             ("type", Val.vstr "MARKET"), ("quantity", Val.vnum a.quantity)]).1,
         (BinanceFuturesClient._post_request svc.binance_client fs net ts1 "/fapi/v1/leverage"
            [("symbol", Val.vstr a.symbol), ("leverage", Val.vint 10)]).2 ++
         (BinanceFuturesClient._post_request svc.binance_client fs net ts2 "/fapi/v1/order"
            [("symbol", Val.vstr a.symbol), ("side", Val.vstr a.side),
             ("type", Val.vstr "MARKET"), ("quantity", Val.vnum a.quantity)]).2)) ∧
    (a.type = "LIMIT" →
      OrderService.create svc fs net ts1 ts2 a =
        ((BinanceFuturesClient._post_request svc.binance_client fs net ts2 "/fapi/v1/order"
            [("symbol", Val.vstr a.symbol), ("side", Val.vstr a.side),
             ("type", Val.vstr "LIMIT"), ("timeInForce", Val.vstr "GTC"),
             ("quantity", Val.vnum a.quantity), ("price", priceVal a.price)]).1,
         (BinanceFuturesClient._post_request svc.binance_client fs net ts1 "/fapi/v1/leverage"
            [("symbol", Val.vstr a.symbol), ("leverage", Val.vint 10)]).2 ++
         (BinanceFuturesClient._post_request svc.binance_client fs net ts2 "/fapi/v1/order"
            [("symbol", Val.vstr a.symbol), ("side", Val.vstr a.side),
             ("type", Val.vstr "LIMIT"), ("timeInForce", Val.vstr "GTC"),
             ("quantity", Val.vnum a.quantity), ("price", priceVal a.price)]).2)) ∧
    (a.type ≠ "MARKET" → a.type ≠ "LIMIT" →
      OrderService.create svc fs net ts1 ts2 a =
        (Except.error (PyError.valueError ("Unsupported order type: " ++ a.type)), [])) ∧
    ((OrderService.create svc fs net ts1 ts2 a).2.map SentRequest.endpoint =
      if a.type = "MARKET" ∨ a.type = "LIMIT" then ["/fapi/v1/leverage", "/fapi/v1/order"]
      else []) := by
  refine ⟨?_, ?_, ?_, ?_⟩
  · intro hm
    unfold OrderService.create
    rw [if_pos hm]
    rfl
  · intro hl
    by_cases hm : a.type = "MARKET"
    · rw [hm] at hl
      exact absurd hl (by decide)
    · unfold OrderService.create
      rw [if_neg hm, if_pos hl]
      rfl
  · intro hm hl
    unfold OrderService.create
    rw [if_neg hm, if_neg hl]
  · by_cases hm : a.type = "MARKET"
    · rw [if_pos (Or.inl hm)]
      unfold OrderService.create
      rw [if_pos hm]
      rfl
    · by_cases hl : a.type = "LIMIT"
      · rw [if_pos (Or.inr hl)]
        unfold OrderService.create
        rw [if_neg hm, if_pos hl]
        rfl
      · rw [if_neg (by tauto)]
        unfold OrderService.create
        rw [if_neg hm, if_neg hl]
        rfl

/-- Witness for C7 at the concrete MARKET intent of the specification. -/
theorem c7_witness :
    OrderService.create ⟨⟨"key", "secret", 10⟩⟩ (fun _ => "q")
        (fun _ _ => NetResponse.response 200 "ok") 1 2
        ⟨"BTCUSDT", "BUY", "MARKET", 1 / 100, none⟩ =
      ((BinanceFuturesClient._post_request ⟨"key", "secret", 10⟩ (fun _ => "q")
          (fun _ _ => NetResponse.response 200 "ok") 2 "/fapi/v1/order"
          [("symbol", Val.vstr "BTCUSDT"), ("side", Val.vstr "BUY"),
           ("type", Val.vstr "MARKET"), ("quantity", Val.vnum (1 / 100))]).1,
       (BinanceFuturesClient._post_request ⟨"key", "secret", 10⟩ (fun _ => "q")
          (fun _ _ => NetResponse.response 200 "ok") 1 "/fapi/v1/leverage"
          [("symbol", Val.vstr "BTCUSDT"), ("leverage", Val.vint 10)]).2 ++
       (BinanceFuturesClient._post_request ⟨"key", "secret", 10⟩ (fun _ => "q")
          (fun _ _ => NetResponse.response 200 "ok") 2 "/fapi/v1/order"
          [("symbol", Val.vstr "BTCUSDT"), ("side", Val.vstr "BUY"),
           ("type", Val.vstr "MARKET"), ("quantity", Val.vnum (1 / 100))]).2) :=
  (c7_create_routes_orders ⟨⟨"key", "secret", 10⟩⟩ (fun _ => "q")
    (fun _ _ => NetResponse.response 200 "ok") 1 2
    ⟨"BTCUSDT", "BUY", "MARKET", 1 / 100, none⟩).1 rfl

/-! ## Claim C8 -/

/-- C8: every Transport call makes exactly one network attempt, with no retry;
a client or server error status (400 to 599) yields an HTTP error carrying
that status and the response body verbatim; an elapsed timeout yields a
transport error; any other response returns the body as success. -/
theorem c8_post_request_outcomes (c : BinanceFuturesClient) (fs : FloatStr) (net : Net)
    (ts : Int) (ep : String) (P : List (String × Val)) :
    (BinanceFuturesClient._post_request c fs net ts ep P).2.length = 1 ∧
    (∀ status body, net ep (signed_params c fs ts P) = NetResponse.response status body →
      (400 ≤ status → status < 600 →
        (BinanceFuturesClient._post_request c fs net ts ep P).1 =
          Except.error (PyError.httpError status body)) ∧
      (¬ (400 ≤ status ∧ status < 600) →
        (BinanceFuturesClient._post_request c fs net ts ep P).1 = Except.ok body)) ∧
    (net ep (signed_params c fs ts P) = NetResponse.timeout →
      (BinanceFuturesClient._post_request c fs net ts ep P).1 =
        Except.error PyError.timeoutError) := by
  refine ⟨rfl, ?_, ?_⟩
  · intro status body hresp
    constructor
    · intro h4 h6
      simp only [BinanceFuturesClient._post_request, hresp]
      rw [if_pos ⟨h4, h6⟩]
    · intro hn
      simp only [BinanceFuturesClient._post_request, hresp]
      rw [if_neg hn]
  · intro htime
    simp only [BinanceFuturesClient._post_request, htime]

/-- Witness for C8: a 400 response carrying the Binance margin error surfaces
status and body, and a timeout surfaces a transport error. -/
theorem c8_witness :
    (BinanceFuturesClient._post_request ⟨"key", "secret", 10⟩ (fun _ => "q")
        (fun _ _ => NetResponse.response 400 "code -2019 Margin is insufficient") 1
        "/fapi/v1/order" [("symbol", Val.vstr "BTCUSDT")]).1 =
      Except.error (PyError.httpError 400 "code -2019 Margin is insufficient") ∧
    (BinanceFuturesClient._post_request ⟨"key", "secret", 10⟩ (fun _ => "q")
        (fun _ _ => NetResponse.timeout) 1 "/fapi/v1/order"
        [("symbol", Val.vstr "BTCUSDT")]).1 = Except.error PyError.timeoutError :=
  ⟨((c8_post_request_outcomes ⟨"key", "secret", 10⟩ (fun _ => "q")
      (fun _ _ => NetResponse.response 400 "code -2019 Margin is insufficient") 1
      "/fapi/v1/order" [("symbol", Val.vstr "BTCUSDT")]).2.1 400
      "code -2019 Margin is insufficient" rfl).1 (by decide) (by decide),
   (c8_post_request_outcomes ⟨"key", "secret", 10⟩ (fun _ => "q")
      (fun _ _ => NetResponse.timeout) 1 "/fapi/v1/order"
      [("symbol", Val.vstr "BTCUSDT")]).2.2 rfl⟩

/-! ## Claim C10 -/

/-- C10: the validator inspects only the side, the quantity and, for LIMIT,
the price — it never checks the symbol or the type value itself — so every
intent with a side among BUY and SELL, a positive quantity and a price
whenever the type is LIMIT passes validation, even with an empty symbol, an
unsupported type such as STOP, or an unused price on a MARKET intent; an
unsupported type is rejected only later by the ValueError of the Order
Router, which then issues no network call. -/
theorem c10_validator_scope (a : Args) (svc : OrderService) (fs : FloatStr) (net : Net)
    (ts1 ts2 : Int)
    (h1 : a.side = "BUY" ∨ a.side = "SELL") (h2 : 0 < a.quantity)
    (h3 : a.type = "LIMIT" → a.price ≠ none) :
    validate_common a = Except.ok () ∧
    (a.type ≠ "MARKET" → a.type ≠ "LIMIT" →
      OrderService.create svc fs net ts1 ts2 a =
        (Except.error (PyError.valueError ("Unsupported order type: " ++ a.type)), [])) := by
  constructor
  · have hmem : a.side ∈ (["BUY", "SELL"] : List String) := by
      rcases h1 with h | h <;> simp [h]
    have hside : ¬ (a.side ∉ (["BUY", "SELL"] : List String)) := not_not.mpr hmem
    have hq : ¬ (a.quantity ≤ 0) := not_le.mpr h2
    have hlp : ¬ (a.type = "LIMIT" ∧ a.price = none) := fun hc => h3 hc.1 hc.2
    unfold validate_common
    rw [if_neg hside, if_neg hq, if_neg hlp]
  · intro hm hl
    unfold OrderService.create
    rw [if_neg hm, if_neg hl]

/-- Witness for C10: an intent with an empty symbol and the unsupported type
STOP passes validation and is rejected by the router without a network
call. -/
theorem c10_witness :
    validate_common ⟨"", "BUY", "STOP", 1, some 5⟩ = Except.ok () ∧
    OrderService.create ⟨⟨"key", "secret", 10⟩⟩ (fun _ => "q")
        (fun _ _ => NetResponse.response 200 "ok") 1 2 ⟨"", "BUY", "STOP", 1, some 5⟩ =
      (Except.error (PyError.valueError "Unsupported order type: STOP"), []) := by
  have h := c10_validator_scope ⟨"", "BUY", "STOP", 1, some 5⟩ ⟨⟨"key", "secret", 10⟩⟩
    (fun _ => "q") (fun _ _ => NetResponse.response 200 "ok") 1 2
    (by decide) (by decide) (by decide)
  exact ⟨h.1, h.2 (by decide) (by decide)⟩

/-! ## Claim C9 -/

set_option maxRecDepth 100000 in
/-- C9 counterexample: for a caller parameter set that already contains a
signature key, re-deriving the signature from the transmitted parameters
minus the signature entry does not reproduce the transmitted signature — the
pre-existing signature entry was part of the encoding that was signed, but is
absent from the re-derivation, so the two digests differ. -/
theorem c9_counterexample :
    dictGet (signed_params ⟨"key", "k", 10⟩ (fun _ => "q") 1
        [("signature", Val.vstr "x")]) "signature" ≠
      some (Val.vstr (BinanceFuturesClient._sign_request ⟨"key", "k", 10⟩ (fun _ => "q")
        (dictRemove (signed_params ⟨"key", "k", 10⟩ (fun _ => "q") 1
          [("signature", Val.vstr "x")]) "signature"))) := by
  decide

/-- C9 amended: for every parameter set that does not already contain a
signature key, the encoding signed and the transmitted encoding agree on
everything but the appended signature entry, so re-deriving the signature
from the transmitted parameters without the signature entry reproduces the
transmitted signature exactly. -/
theorem c9_amended_roundtrip (c : BinanceFuturesClient) (fs : FloatStr) (ts : Int)
    (P : List (String × Val)) (h : "signature" ∉ dictKeys P) :
    dictGet (signed_params c fs ts P) "signature" =
      some (Val.vstr (BinanceFuturesClient._sign_request c fs
        (dictRemove (signed_params c fs ts P) "signature"))) := by
  have hsig : "signature" ∉ dictKeys (dictInsert P "timestamp" (Val.vint ts)) :=
    not_mem_dictKeys_dictInsert P "timestamp" "signature" (Val.vint ts) h (by decide)
  unfold signed_params
  rw [dictInsert_of_not_mem _ _ _ hsig, dictRemove_append_single _ _ _ hsig,
    dictGet_append_single _ _ _ hsig]

/-- Witness for the amended C9 at the concrete market-order parameters. -/
theorem c9_amended_witness :
    dictGet (signed_params ⟨"key", "secret", 10⟩ (fun _ => "q") 1700000000000
        [("symbol", Val.vstr "BTCUSDT")]) "signature" =
      some (Val.vstr (BinanceFuturesClient._sign_request ⟨"key", "secret", 10⟩ (fun _ => "q")
        (dictRemove (signed_params ⟨"key", "secret", 10⟩ (fun _ => "q") 1700000000000
          [("symbol", Val.vstr "BTCUSDT")]) "signature"))) :=
  c9_amended_roundtrip ⟨"key", "secret", 10⟩ (fun _ => "q") 1700000000000
    [("symbol", Val.vstr "BTCUSDT")] (by decide)
